import Mathlib

/-!
Verification development for the OzCompass airline market demand analyzer
(`src/app.py`). We shallowly embed the city registry, the flight data
fetcher, the pandas aggregation and the insight generator, and prove the
specification's claims about them.

External library behaviour (HTTP transport, `datetime.strftime`,
`datetime.fromtimestamp`, the chat-completion client) is supplied as
parameters: the fetcher receives a response function mapping each issued
query to the upstream outcome, and date formatting functions are passed in.
Dates are represented as day counts, so `timedelta(days=n)` is `+ n`.
Prices are modelled as rationals, so the pandas `mean` is the exact
arithmetic mean.
-/

namespace OzCompass

/-- The static city registry `AUSTRALIAN_CITIES` from `app.py`: city name to
airport code, in source order. -/
def AUSTRALIAN_CITIES : List (String × String) :=
  [("Sydney", "SYD"), ("Melbourne", "MEL"), ("Brisbane", "BNE"),
   ("Perth", "PER"), ("Adelaide", "ADL"), ("Canberra", "CBR"),
   ("Gold Coast", "OOL"), ("Cairns", "CNS")]

/-- The registry's airport codes, i.e. `AUSTRALIAN_CITIES.values()`. -/
def cityCodes : List String := AUSTRALIAN_CITIES.map Prod.snd

/-- One item of the upstream JSON `data` array. The `airlines` field is
`none` when the key is absent from the item (so that `flight.get('airlines',
['N/A'])` yields the default), and `some l` when present with value `l`. -/
structure FlightItem where
  cityFrom : String
  flyFrom : String
  cityTo : String
  flyTo : String
  price : ℚ
  airlines : Option (List String)
  dTime : ℕ
deriving DecidableEq, Repr

/-- One row appended to `all_flights` in `fetch_flight_data`:
Origin, Origin Code, Destination, Destination Code, Price (AUD), Airline,
Departure Date. -/
structure FlightRecord where
  origin : String
  originCode : String
  destination : String
  destinationCode : String
  priceAUD : ℚ
  airline : String
  departureDate : String
deriving DecidableEq, Repr

/-- The query parameter dictionary built for each destination in
`fetch_flight_data`. -/
structure SearchParams where
  fly_from : String
  fly_to : String
  date_from : String
  date_to : String
  curr : String
  limit : ℕ
  sort : String
  one_for_city : ℕ
deriving DecidableEq, Repr

/-- Outcome of one `requests.get` + `raise_for_status` + `json()` round trip:
either a `requests.exceptions.RequestException` is raised, or a JSON body is
obtained whose `data` key is absent (`none`) or holds a list of items. -/
inductive UpstreamResponse where
  | reqError (msg : String)
  | success (body : Option (List FlightItem))
deriving DecidableEq, Repr

/-- Does this response raise a `RequestException`? -/
def UpstreamResponse.isErr : UpstreamResponse → Bool
  | .reqError _ => true
  | .success _ => false

/-- The params dict for one destination, as built in the loop body of
`fetch_flight_data`: `date_from` is tomorrow and `date_to` is 180 days from
today, both rendered by the supplied `strftime('%d/%m/%Y')` function. -/
def mkParams (strftimeDMY : ℕ → String) (today : ℕ)
    (origin_city_code dest_code : String) : SearchParams :=
  { fly_from := origin_city_code
    fly_to := dest_code
    date_from := strftimeDMY (today + 1)
    date_to := strftimeDMY (today + 180)
    curr := "AUD"
    limit := 50
    sort := "price"
    one_for_city := 1 }

/-- Building one `all_flights` entry from one upstream item. When `airlines`
is present but empty, `flight.get('airlines', ['N/A'])[0]` raises an
`IndexError`; when the key is absent the default `['N/A'][0] = "N/A"` is
used. `fromtsYMD` is `datetime.fromtimestamp(..).strftime('%Y-%m-%d')`. -/
def recordOfItem (fromtsYMD : ℕ → String) (f : FlightItem) :
    Except String FlightRecord :=
  match f.airlines with
  | Option.none =>
      .ok ⟨f.cityFrom, f.flyFrom, f.cityTo, f.flyTo, f.price, "N/A",
           fromtsYMD f.dTime⟩
  | some [] => .error "IndexError: list index out of range"
  | some (a :: _) =>
      .ok ⟨f.cityFrom, f.flyFrom, f.cityTo, f.flyTo, f.price, a,
           fromtsYMD f.dTime⟩

/-- The `for flight in data['data']:` loop body, building one record per
item; the first exception raised by any item propagates. -/
def mapExcept {α β : Type} (f : α → Except String β) :
    List α → Except String (List β)
  | [] => .ok []
  | a :: as =>
      match f a with
      | .error e => .error e
      | .ok b =>
          match mapExcept f as with
          | .error e => .error e
          | .ok bs => .ok (b :: bs)

/-- The records contributed by one successful response body: nothing when
the `data` key is absent or its list is empty (the
`if 'data' in data and data['data']:` guard), otherwise one record per item.
An `IndexError` from any item propagates (it is not a `RequestException`,
so the `except` clause does not catch it). -/
def recordsOfBody (fromtsYMD : ℕ → String) (body : Option (List FlightItem)) :
    Except String (List FlightRecord) :=
  match body with
  | Option.none => .ok []
  | some items =>
      if items.isEmpty then .ok []
      else mapExcept (recordOfItem fromtsYMD) items

/-- The per-destination loop of `fetch_flight_data`. Arguments: the upstream
response function, the params builder, the body-to-records translation, the
remaining destinations, the `all_flights` accumulator and the queries issued
so far. Returns the full list of issued queries together with the outcome:
`.error e` models an uncaught Python exception, `.ok none` models
`return None`, and `.ok (some rows)` models returning
`pd.DataFrame(all_flights)`. -/
def fetchLoop (resp : SearchParams → UpstreamResponse)
    (mk : String → SearchParams)
    (recOfBody : Option (List FlightItem) → Except String (List FlightRecord)) :
    List String → List FlightRecord → List SearchParams →
    List SearchParams × Except String (Option (List FlightRecord))
  | [], acc, qs => (qs, .ok (if acc.isEmpty then Option.none else some acc))
  | d :: ds, acc, qs =>
      let p := mk d
      match resp p with
      | .reqError _ => (qs ++ [p], .ok Option.none)
      | .success body =>
          match recOfBody body with
          | .error e => (qs ++ [p], .error e)
          | .ok recs => fetchLoop resp mk recOfBody ds (acc ++ recs) (qs ++ [p])

/-- The function `fetch_flight_data(origin_city_code)`, parameterised by the date
formatting functions, the current day and the upstream response function.
The destinations are every registry code other than the origin, in registry
order. -/
def fetch_flight_data (strftimeDMY fromtsYMD : ℕ → String) (today : ℕ)
    (origin_city_code : String) (resp : SearchParams → UpstreamResponse) :
    List SearchParams × Except String (Option (List FlightRecord)) :=
  let destinations := cityCodes.filter (fun code => code ≠ origin_city_code)
  fetchLoop resp (mkParams strftimeDMY today origin_city_code)
    (recordsOfBody fromtsYMD) destinations [] []

/-- The records contributed by the query for destination `d`, seen from
outside the loop: `none` when the query raises or an item crashes record
construction, `some recs` otherwise. -/
def stepRecords (resp : SearchParams → UpstreamResponse)
    (mk : String → SearchParams)
    (recOfBody : Option (List FlightItem) → Except String (List FlightRecord))
    (d : String) : Option (List FlightRecord) :=
  match resp (mk d) with
  | .reqError _ => Option.none
  | .success body =>
      match recOfBody body with
      | .error _ => Option.none
      | .ok recs => some recs

/-- One row of `agg_df`: destination name, mean `Price (AUD)` and record
count for that destination. -/
structure DestinationAggregate where
  destination : String
  averagePrice : ℚ
  flightCount : ℕ
deriving DecidableEq, Repr

/-- The distinct group keys of `flight_df.groupby('Destination')`: the
distinct destination names, in sorted order (pandas sorts group keys). -/
def groupKeys (rows : List FlightRecord) : List String :=
  ((rows.map (fun r => r.destination)).dedup).mergeSort
    (fun a b => decide (a ≤ b))

/-- The rows of `flight_df` falling in the group of destination `d`. -/
def groupFor (rows : List FlightRecord) (d : String) : List FlightRecord :=
  rows.filter (fun r => r.destination = d)

/-- The aggregate row for destination `d`:
`Average_Price=('Price (AUD)', 'mean')`, `Flight_Count=('Price (AUD)', 'count')`. -/
def aggFor (rows : List FlightRecord) (d : String) : DestinationAggregate :=
  { destination := d
    averagePrice :=
      ((groupFor rows d).map (fun r => r.priceAUD)).sum /
        ((groupFor rows d).length : ℚ)
    flightCount := (groupFor rows d).length }

/-- `agg_df` before the final sort: one aggregate per distinct destination. -/
def aggregate (rows : List FlightRecord) : List DestinationAggregate :=
  (groupKeys rows).map (aggFor rows)

/-- The table `agg_df`: the aggregates sorted ascending by `Average_Price`
(`.sort_values('Average_Price')`). -/
def agg_df (rows : List FlightRecord) : List DestinationAggregate :=
  (aggregate rows).mergeSort (fun a b => decide (a.averagePrice ≤ b.averagePrice))

/-- The table `agg_df_sorted_by_count`: `agg_df.sort_values('Flight_Count',
ascending=False)`. -/
def agg_df_sorted_by_count (rows : List FlightRecord) :
    List DestinationAggregate :=
  (agg_df rows).mergeSort (fun a b => decide (b.flightCount ≤ a.flightCount))

/-- Outcome of `chain.invoke(...)` in `get_ai_insights`: either the model's
text, or a raised exception with message `msg`. -/
inductive ChatOutcome where
  | success (text : String)
  | exn (msg : String)
deriving DecidableEq, Repr

/-- One CSV line of `df.to_csv(index=False)` for one flight record. -/
def csvLine (r : FlightRecord) : String :=
  r.origin ++ "," ++ r.originCode ++ "," ++ r.destination ++ "," ++
    r.destinationCode ++ "," ++ toString r.priceAUD ++ "," ++ r.airline ++
    "," ++ r.departureDate

/-- The serialization `df.to_csv(index=False)`: header line then one line per record. -/
def to_csv (rows : List FlightRecord) : String :=
  "Origin,Origin Code,Destination,Destination Code,Price (AUD),Airline,Departure Date\n"
    ++ String.join (rows.map (fun r => csvLine r ++ "\n"))

/-- The human message of the prompt template with the serialized table
interpolated at its single substitution point. -/
def promptOf (data_summary : String) : String :=
  "Based on the following flight data summary, please provide a concise analysis of market demand trends.\nHere is the data:\n---\n"
    ++ data_summary ++ "\n---\nPlease present your analysis in a clean, easy-to-read format."

/-- Python truthiness of `OPENAI_API_KEY`: `os.getenv` yields `none` when the
variable is unset, and an empty string is also falsy. -/
def keyTruthy : Option String → Bool
  | Option.none => false
  | some s => !s.isEmpty

/-- The function `get_ai_insights(df)`, parameterised by the configured credential and the
chat-completion call (which receives the interpolated prompt). `df = none`
models `df is None`; the second component counts the network calls made to
the completion service (0 or 1 — the call is never retried). -/
def get_ai_insights (openai_key : Option String)
    (chat : String → ChatOutcome) (df : Option (List FlightRecord)) :
    String × ℕ :=
  match df with
  | Option.none => ("No data available to generate insights.", 0)
  | some rows =>
      if rows.isEmpty then ("No data available to generate insights.", 0)
      else if !keyTruthy openai_key then
        ("OpenAI API key is not set. Cannot generate AI insights.", 0)
      else
        let data_summary := to_csv rows
        match chat (promptOf data_summary) with
        | .success t => (t, 1)
        | .exn e => ("An error occurred while generating AI insights: " ++ e, 1)

/-! ## Helper lemmas -/

/-- A successful record keeps the upstream item's `flyTo` as its
destination code. -/
theorem recordOfItem_destinationCode (fromtsYMD : ℕ → String)
    (it : FlightItem) (r : FlightRecord)
    (h : recordOfItem fromtsYMD it = .ok r) :
    r.destinationCode = it.flyTo := by
  unfold recordOfItem at h
  rcases hair : it.airlines with _ | l
  · rw [hair] at h
    cases h
    rfl
  · rcases l with _ | ⟨a, rest⟩ <;> rw [hair] at h
    · cases h
    · cases h
      rfl

/-- The only exception `recordOfItem` raises is the `IndexError`. -/
theorem recordOfItem_error (fromtsYMD : ℕ → String) (it : FlightItem)
    (e : String) (h : recordOfItem fromtsYMD it = .error e) :
    e = "IndexError: list index out of range" := by
  unfold recordOfItem at h
  rcases hair : it.airlines with _ | (_ | ⟨a, rest⟩) <;> rw [hair] at h <;>
    cases h
  rfl

/-- Every element of a successful `mapExcept` run comes from some element of
the input list. -/
theorem mapExcept_ok_mem {α β : Type} (f : α → Except String β) :
    ∀ (l : List α) (bs : List β), mapExcept f l = .ok bs →
      ∀ b ∈ bs, ∃ a ∈ l, f a = .ok b := by
  intro l
  induction l with
  | nil =>
      intro bs h b hb
      cases h
      cases hb
  | cons a as ih =>
      intro bs h b hb
      unfold mapExcept at h
      rcases hfa : f a with e | b0 <;> rw [hfa] at h
      · cases h
      · rcases hrest : mapExcept f as with e | bs0 <;> rw [hrest] at h
        · cases h
        · cases h
          rcases List.mem_cons.mp hb with rfl | hmem
          · exact ⟨a, List.mem_cons_self a as, hfa⟩
          · obtain ⟨a', ha', hfa'⟩ := ih bs0 hrest b hmem
            exact ⟨a', List.mem_cons_of_mem a ha', hfa'⟩

/-- If any input element raises, `mapExcept` over `recordOfItem` raises the
`IndexError` (every element failure is that error, and the first one
propagates). -/
theorem mapExcept_records_error (fromtsYMD : ℕ → String) :
    ∀ (items : List FlightItem), (∃ it ∈ items, it.airlines = some []) →
      mapExcept (recordOfItem fromtsYMD) items =
        .error "IndexError: list index out of range" := by
  intro items
  induction items with
  | nil =>
      rintro ⟨it, hit, _⟩
      cases hit
  | cons x xs ih =>
      rintro ⟨it, hit, hair⟩
      unfold mapExcept
      rcases hfx : recordOfItem fromtsYMD x with e | r
      · rw [recordOfItem_error fromtsYMD x e hfx]
      · rcases List.mem_cons.mp hit with rfl | hmem
        · unfold recordOfItem at hfx
          rw [hair] at hfx
          cases hfx
        · rw [ih ⟨it, hmem, hair⟩]

/-- Every record extracted from a successful response body originates in an
item of the body's `data` list and keeps that item's `flyTo`. -/
theorem recordsOfBody_flyTo (fromtsYMD : ℕ → String)
    (body : Option (List FlightItem)) (recs : List FlightRecord)
    (h : recordsOfBody fromtsYMD body = .ok recs) :
    ∀ r ∈ recs, ∃ items it, body = some items ∧ it ∈ items ∧
      r.destinationCode = it.flyTo := by
  intro r hr
  rcases body with _ | items <;> simp only [recordsOfBody] at h
  · cases h
    cases hr
  · by_cases hemp : items.isEmpty
    · rw [if_pos hemp] at h
      cases h
      cases hr
    · rw [if_neg hemp] at h
      obtain ⟨it, hit, hok⟩ := mapExcept_ok_mem _ items recs h r hr
      exact ⟨items, it, rfl, hit, recordOfItem_destinationCode _ _ _ hok⟩

/-- If an issued query's response is an error and no previously issued query
errored, the loop returns `None` (the `except` branch's `return None`). -/
theorem fetchLoop_err_of_mem (resp : SearchParams → UpstreamResponse)
    (mk : String → SearchParams)
    (recOfBody : Option (List FlightItem) → Except String (List FlightRecord)) :
    ∀ (ds : List String) (acc : List FlightRecord) (qs : List SearchParams),
      (∀ p ∈ qs, (resp p).isErr = false) →
      (∃ p ∈ (fetchLoop resp mk recOfBody ds acc qs).1, (resp p).isErr = true) →
      (fetchLoop resp mk recOfBody ds acc qs).2 = .ok Option.none := by
  intro ds
  induction ds with
  | nil =>
      intro acc qs hqs hex
      simp only [fetchLoop] at hex
      obtain ⟨p, hp, hperr⟩ := hex
      rw [hqs p hp] at hperr
      cases hperr
  | cons d ds ih =>
      intro acc qs hqs hex
      simp only [fetchLoop] at hex ⊢
      rcases hresp : resp (mk d) with m | body
      · simp only [hresp]
      · rcases hrec : recOfBody body with e | recs
        · simp only [hresp, hrec] at hex
          obtain ⟨p, hp, hperr⟩ := hex
          rcases List.mem_append.mp hp with h1 | h1
          · rw [hqs p h1] at hperr
            cases hperr
          · rw [List.mem_singleton.mp h1, hresp] at hperr
            cases hperr
        · simp only [hresp, hrec] at hex ⊢
          refine ih (acc ++ recs) (qs ++ [mk d]) ?_ hex
          intro p hp
          rcases List.mem_append.mp hp with h1 | h1
          · exact hqs p h1
          · rw [List.mem_singleton.mp h1, hresp]
            rfl

/-- A returned table is never the empty table: the
`if not all_flights: return None` guard. -/
theorem fetchLoop_ok_some_ne_nil (resp : SearchParams → UpstreamResponse)
    (mk : String → SearchParams)
    (recOfBody : Option (List FlightItem) → Except String (List FlightRecord)) :
    ∀ (ds : List String) (acc : List FlightRecord) (qs : List SearchParams)
      (rows : List FlightRecord),
      (fetchLoop resp mk recOfBody ds acc qs).2 = .ok (some rows) →
      rows ≠ [] := by
  intro ds
  induction ds with
  | nil =>
      intro acc qs rows h
      simp only [fetchLoop] at h
      by_cases hemp : acc.isEmpty
      · rw [if_pos hemp] at h
        cases h
      · rw [if_neg hemp] at h
        cases h
        intro hnil
        rw [hnil] at hemp
        exact hemp rfl
  | cons d ds ih =>
      intro acc qs rows h
      simp only [fetchLoop] at h
      rcases hresp : resp (mk d) with m | body <;> simp only [hresp] at h
      · cases h
      · rcases hrec : recOfBody body with e | recs <;> simp only [hrec] at h
        · cases h
        · exact ih (acc ++ recs) (qs ++ [mk d]) rows h

/-- When every remaining step succeeds, the loop raises no exception. -/
theorem fetchLoop_ok_of_steps (resp : SearchParams → UpstreamResponse)
    (mk : String → SearchParams)
    (recOfBody : Option (List FlightItem) → Except String (List FlightRecord)) :
    ∀ (ds : List String) (acc : List FlightRecord) (qs : List SearchParams),
      (∀ d ∈ ds, (stepRecords resp mk recOfBody d).isSome = true) →
      ∃ res, (fetchLoop resp mk recOfBody ds acc qs).2 = .ok res := by
  intro ds
  induction ds with
  | nil =>
      intro acc qs _
      exact ⟨_, rfl⟩
  | cons d ds ih =>
      intro acc qs hok
      have hd := hok d (List.mem_cons_self d ds)
      simp only [fetchLoop]
      rcases hresp : resp (mk d) with m | body
      · exact ⟨Option.none, rfl⟩
      · rcases hrec : recOfBody body with e | recs
        · simp [stepRecords, hresp, hrec] at hd
        · simp only [hresp, hrec]
          exact ih (acc ++ recs) (qs ++ [mk d])
            (fun d' hd' => hok d' (List.mem_cons_of_mem d hd'))

/-- When every step succeeds, the issued queries are exactly one per
destination, in order. -/
theorem fetchLoop_qs_of_steps (resp : SearchParams → UpstreamResponse)
    (mk : String → SearchParams)
    (recOfBody : Option (List FlightItem) → Except String (List FlightRecord)) :
    ∀ (ds : List String) (acc : List FlightRecord) (qs : List SearchParams),
      (∀ d ∈ ds, (stepRecords resp mk recOfBody d).isSome = true) →
      (fetchLoop resp mk recOfBody ds acc qs).1 = qs ++ ds.map mk := by
  intro ds
  induction ds with
  | nil =>
      intro acc qs _
      simp [fetchLoop]
  | cons d ds ih =>
      intro acc qs hok
      have hd := hok d (List.mem_cons_self d ds)
      simp only [fetchLoop]
      rcases hresp : resp (mk d) with m | body
      · simp [stepRecords, hresp] at hd
      · rcases hrec : recOfBody body with e | recs
        · simp [stepRecords, hresp, hrec] at hd
        · simp only [hresp, hrec]
          rw [ih (acc ++ recs) (qs ++ [mk d])
            (fun d' hd' => hok d' (List.mem_cons_of_mem d hd'))]
          simp [List.map_cons]

/-- In an error-free run, the loop returns `None` exactly when the
accumulator is empty and every remaining query contributes zero records. -/
theorem fetchLoop_ok_none_iff (resp : SearchParams → UpstreamResponse)
    (mk : String → SearchParams)
    (recOfBody : Option (List FlightItem) → Except String (List FlightRecord)) :
    ∀ (ds : List String) (acc : List FlightRecord) (qs : List SearchParams),
      (∀ d ∈ ds, (stepRecords resp mk recOfBody d).isSome = true) →
      ((fetchLoop resp mk recOfBody ds acc qs).2 = .ok Option.none ↔
        (acc = [] ∧ ∀ d ∈ ds, stepRecords resp mk recOfBody d = some [])) := by
  intro ds
  induction ds with
  | nil =>
      intro acc qs _
      simp only [fetchLoop]
      by_cases hemp : acc.isEmpty
      · rw [if_pos hemp]
        simp [List.isEmpty_iff.mp hemp]
      · rw [if_neg hemp]
        constructor
        · intro h
          cases h
        · rintro ⟨rfl, -⟩
          exact absurd rfl hemp
  | cons d ds ih =>
      intro acc qs hok
      have hd := hok d (List.mem_cons_self d ds)
      simp only [fetchLoop]
      rcases hresp : resp (mk d) with m | body
      · simp [stepRecords, hresp] at hd
      · rcases hrec : recOfBody body with e | recs
        · simp [stepRecords, hresp, hrec] at hd
        · simp only [hresp, hrec]
          rw [ih (acc ++ recs) (qs ++ [mk d])
            (fun d' hd' => hok d' (List.mem_cons_of_mem d hd'))]
          have hstep : stepRecords resp mk recOfBody d = some recs := by
            simp [stepRecords, hresp, hrec]
          rw [List.forall_mem_cons, hstep]
          simp only [List.append_eq_nil, Option.some.injEq]
          constructor
          · rintro ⟨⟨rfl, rfl⟩, hall⟩
            exact ⟨rfl, rfl, hall⟩
          · rintro ⟨rfl, rfl, hall⟩
            exact ⟨⟨rfl, rfl⟩, hall⟩

/-- Any property holding of each step's records and of the accumulator holds
of every row of a returned table. -/
theorem fetchLoop_mem_of_ok (resp : SearchParams → UpstreamResponse)
    (mk : String → SearchParams)
    (recOfBody : Option (List FlightItem) → Except String (List FlightRecord))
    (P : FlightRecord → Prop) :
    ∀ (ds : List String) (acc : List FlightRecord) (qs : List SearchParams),
      (∀ d ∈ ds, ∀ recs, stepRecords resp mk recOfBody d = some recs →
        ∀ r ∈ recs, P r) →
      (∀ r ∈ acc, P r) →
      ∀ rows, (fetchLoop resp mk recOfBody ds acc qs).2 = .ok (some rows) →
        ∀ r ∈ rows, P r := by
  intro ds
  induction ds with
  | nil =>
      intro acc qs _ hacc rows h
      simp only [fetchLoop] at h
      by_cases hemp : acc.isEmpty
      · rw [if_pos hemp] at h
        cases h
      · rw [if_neg hemp] at h
        cases h
        exact hacc
  | cons d ds ih =>
      intro acc qs hsteps hacc rows h
      simp only [fetchLoop] at h
      rcases hresp : resp (mk d) with m | body <;> simp only [hresp] at h
      · cases h
      · rcases hrec : recOfBody body with e | recs <;> simp only [hrec] at h
        · cases h
        · have hstep : stepRecords resp mk recOfBody d = some recs := by
            simp [stepRecords, hresp, hrec]
          refine ih (acc ++ recs) (qs ++ [mk d])
            (fun d' hd' => hsteps d' (List.mem_cons_of_mem d hd')) ?_ rows h
          intro r hr
          rcases List.mem_append.mp hr with h1 | h1
          · exact hacc r h1
          · exact hsteps d (List.mem_cons_self d ds) recs hstep r h1

/-- The keys of the aggregate rows are exactly the group keys. -/
theorem aggregate_map_destination (rows : List FlightRecord) :
    (aggregate rows).map (fun a => a.destination) = groupKeys rows := by
  unfold aggregate
  rw [List.map_map]
  simp [Function.comp_def, aggFor]

/-- The group keys are duplicate-free. -/
theorem groupKeys_nodup (rows : List FlightRecord) : (groupKeys rows).Nodup := by
  unfold groupKeys
  exact (List.mergeSort_perm _ _).symm.nodup (List.nodup_dedup _)

/-- A destination is a group key exactly when some record has it. -/
theorem mem_groupKeys (rows : List FlightRecord) (d : String) :
    d ∈ groupKeys rows ↔ ∃ r ∈ rows, r.destination = d := by
  unfold groupKeys
  rw [List.mem_mergeSort, List.mem_dedup, List.mem_map]

/-- Every aggregate row is the aggregate of its own key, a group key. -/
theorem mem_aggregate (rows : List FlightRecord) (a : DestinationAggregate)
    (ha : a ∈ aggregate rows) :
    a.destination ∈ groupKeys rows ∧ a = aggFor rows a.destination := by
  unfold aggregate at ha
  obtain ⟨k, hk, rfl⟩ := List.mem_map.mp ha
  exact ⟨hk, rfl⟩

/-- A group key's group is non-empty. -/
theorem groupFor_length_pos (rows : List FlightRecord) (d : String)
    (hd : d ∈ groupKeys rows) : 0 < (groupFor rows d).length := by
  obtain ⟨r, hr, hrd⟩ := (mem_groupKeys rows d).mp hd
  refine List.length_pos_of_mem (a := r) ?_
  unfold groupFor
  rw [List.mem_filter]
  exact ⟨hr, by simp [hrd]⟩

/-! ## Claim theorems -/

/-- C1: for every origin code and every assignment of upstream responses, if
any per-destination query actually issued raises a network/HTTP error, then
`fetch_flight_data` returns `None`: records collected from earlier
destinations in the same run are discarded and no partial table is returned,
regardless of which issued query fails. -/
theorem fetch_aborts_on_request_error
    (strftimeDMY fromtsYMD : ℕ → String) (today : ℕ)
    (origin_city_code : String) (resp : SearchParams → UpstreamResponse)
    (h : ∃ p ∈ (fetch_flight_data strftimeDMY fromtsYMD today
        origin_city_code resp).1, (resp p).isErr = true) :
    (fetch_flight_data strftimeDMY fromtsYMD today origin_city_code resp).2 =
      .ok Option.none := by
  simp only [fetch_flight_data] at h ⊢
  exact fetchLoop_err_of_mem resp _ _ _ [] [] (by simp) h

/-- Witness for C1: with every query failing, the first issued query errors
and the fetch returns `None`. -/
theorem fetch_aborts_on_request_error_witness :
    (∃ p ∈ (fetch_flight_data (fun _ => "") (fun _ => "") 0 "SYD"
        (fun _ => .reqError "connection refused")).1,
      ((fun _ => UpstreamResponse.reqError "connection refused") p).isErr
        = true) ∧
    (fetch_flight_data (fun _ => "") (fun _ => "") 0 "SYD"
        (fun _ => .reqError "connection refused")).2 = .ok Option.none :=
  ⟨by decide,
    fetch_aborts_on_request_error (fun _ => "") (fun _ => "") 0 "SYD"
      (fun _ => .reqError "connection refused") (by decide)⟩

/-- C3 (amended): under the additional assumption that the upstream echoes
the queried route (every item of a successful body has `flyTo` equal to the
query's `fly_to` parameter), every record of a returned table has a
destination code in the registry that differs from the queried origin. The
assumption is necessary: the code copies the upstream `flyTo` field verbatim
into the record, see the counterexample. -/
theorem fetch_destination_invariant
    (strftimeDMY fromtsYMD : ℕ → String) (today : ℕ)
    (origin_city_code : String) (resp : SearchParams → UpstreamResponse)
    (horigin : origin_city_code ∈ cityCodes)
    (hEcho : ∀ p items, resp p = .success (some items) →
      ∀ it ∈ items, it.flyTo = p.fly_to) :
    ∀ rows, (fetch_flight_data strftimeDMY fromtsYMD today
        origin_city_code resp).2 = .ok (some rows) →
      ∀ r ∈ rows, r.destinationCode ∈ cityCodes ∧
        r.destinationCode ≠ origin_city_code := by
  intro rows hrows r hr
  simp only [fetch_flight_data] at hrows
  refine fetchLoop_mem_of_ok resp
    (mkParams strftimeDMY today origin_city_code) (recordsOfBody fromtsYMD)
    (fun r => r.destinationCode ∈ cityCodes ∧
      r.destinationCode ≠ origin_city_code)
    (cityCodes.filter (fun code => code ≠ origin_city_code)) [] []
    ?_ (by simp) rows hrows r hr
  intro d hd recs hstep r' hr'
  obtain ⟨hdmem, hdneq⟩ := List.mem_filter.mp hd
  rcases hresp : resp (mkParams strftimeDMY today origin_city_code d)
      with m | body
  · simp [stepRecords, hresp] at hstep
  · rcases hrec : recordsOfBody fromtsYMD body with e | recs0
    · simp [stepRecords, hresp, hrec] at hstep
    · have hrecs : recs = recs0 := by
        simp only [stepRecords, hresp, hrec, Option.some.injEq] at hstep
        exact hstep.symm
      obtain ⟨items, it, hbody, hit, hdest⟩ :=
        recordsOfBody_flyTo fromtsYMD body recs0 hrec r' (hrecs ▸ hr')
      subst hbody
      have hfly := hEcho _ items hresp it hit
      rw [hdest, hfly]
      exact ⟨hdmem, of_decide_eq_true hdneq⟩

/-- Witness for C3 (amended): an upstream that echoes the queried route
(each returned item's `flyTo` is the query's `fly_to`) satisfies the echo
assumption non-vacuously, the fetch returns a seven-row table, and every
returned record's destination code is a registry code other than `"SYD"`. -/
theorem fetch_destination_invariant_witness :
    ("SYD" ∈ cityCodes ∧
      (∀ (p : SearchParams) (items : List FlightItem),
          (fun q : SearchParams => UpstreamResponse.success
            (some [⟨"Sydney", q.fly_from, "City", q.fly_to, 100,
              some ["QF"], 0⟩])) p =
          .success (some items) → ∀ it ∈ items, it.flyTo = p.fly_to)) ∧
    (fetch_flight_data (fun _ => "") (fun _ => "") 0 "SYD"
        (fun q => .success (some [⟨"Sydney", q.fly_from, "City", q.fly_to,
          100, some ["QF"], 0⟩]))).2 =
      .ok (some [⟨"Sydney", "SYD", "City", "MEL", 100, "QF", ""⟩,
        ⟨"Sydney", "SYD", "City", "BNE", 100, "QF", ""⟩,
        ⟨"Sydney", "SYD", "City", "PER", 100, "QF", ""⟩,
        ⟨"Sydney", "SYD", "City", "ADL", 100, "QF", ""⟩,
        ⟨"Sydney", "SYD", "City", "CBR", 100, "QF", ""⟩,
        ⟨"Sydney", "SYD", "City", "OOL", 100, "QF", ""⟩,
        ⟨"Sydney", "SYD", "City", "CNS", 100, "QF", ""⟩]) ∧
    (∀ r ∈ ([⟨"Sydney", "SYD", "City", "MEL", 100, "QF", ""⟩,
        ⟨"Sydney", "SYD", "City", "BNE", 100, "QF", ""⟩,
        ⟨"Sydney", "SYD", "City", "PER", 100, "QF", ""⟩,
        ⟨"Sydney", "SYD", "City", "ADL", 100, "QF", ""⟩,
        ⟨"Sydney", "SYD", "City", "CBR", 100, "QF", ""⟩,
        ⟨"Sydney", "SYD", "City", "OOL", 100, "QF", ""⟩,
        ⟨"Sydney", "SYD", "City", "CNS", 100, "QF", ""⟩] :
          List FlightRecord),
      r.destinationCode ∈ cityCodes ∧ r.destinationCode ≠ "SYD") := by
  have hEcho : ∀ (p : SearchParams) (items : List FlightItem),
      (fun q : SearchParams => UpstreamResponse.success
        (some [⟨"Sydney", q.fly_from, "City", q.fly_to, 100,
          some ["QF"], 0⟩])) p =
      .success (some items) → ∀ it ∈ items, it.flyTo = p.fly_to := by
    intro p items h it hit
    have h1 := Option.some.inj (UpstreamResponse.success.inj h)
    subst h1
    rw [List.mem_singleton] at hit
    subst hit
    rfl
  refine ⟨⟨by decide, hEcho⟩, rfl, ?_⟩
  exact fetch_destination_invariant (fun _ => "") (fun _ => "") 0 "SYD"
    (fun q => .success (some [⟨"Sydney", q.fly_from, "City", q.fly_to, 100,
      some ["QF"], 0⟩])) (by decide) hEcho _ rfl

/-- Counterexample to C3 as stated: an upstream that reports `flyTo = "SYD"`
for a query from origin `"SYD"` yields a returned table every record of
which has destination code equal to the origin — the fetcher performs no
validation of the upstream's `flyTo` field. -/
theorem fetch_destination_invariant_counterexample :
    (fetch_flight_data (fun _ => "") (fun _ => "") 0 "SYD"
        (fun _ => .success (some [⟨"Melbourne", "MEL", "Sydney", "SYD",
          100, some ["QF"], 0⟩]))).2 =
      .ok (some (List.replicate 7
        ⟨"Melbourne", "MEL", "Sydney", "SYD", 100, "QF", ""⟩)) ∧
    ∀ r ∈ List.replicate 7
        (⟨"Melbourne", "MEL", "Sydney", "SYD", 100, "QF", ""⟩ : FlightRecord),
      r.destinationCode = "SYD" := by
  constructor
  · rfl
  · decide

/-- C4: in every run in which no per-destination query raises (every step
yields records), the fetch raises nothing, returns `None` exactly when every
per-destination query contributed zero records, and never returns an empty
table. -/
theorem fetch_absent_or_nonempty
    (strftimeDMY fromtsYMD : ℕ → String) (today : ℕ)
    (origin_city_code : String) (resp : SearchParams → UpstreamResponse)
    (hok : ∀ d ∈ cityCodes.filter (fun code => code ≠ origin_city_code),
      (stepRecords resp (mkParams strftimeDMY today origin_city_code)
        (recordsOfBody fromtsYMD) d).isSome = true) :
    (∃ res, (fetch_flight_data strftimeDMY fromtsYMD today
        origin_city_code resp).2 = .ok res) ∧
    ((fetch_flight_data strftimeDMY fromtsYMD today
        origin_city_code resp).2 = .ok Option.none ↔
      ∀ d ∈ cityCodes.filter (fun code => code ≠ origin_city_code),
        stepRecords resp (mkParams strftimeDMY today origin_city_code)
          (recordsOfBody fromtsYMD) d = some []) ∧
    (∀ rows, (fetch_flight_data strftimeDMY fromtsYMD today
        origin_city_code resp).2 = .ok (some rows) → rows ≠ []) := by
  simp only [fetch_flight_data]
  refine ⟨fetchLoop_ok_of_steps _ _ _ _ [] [] hok, ?_,
    fun rows h => fetchLoop_ok_some_ne_nil _ _ _ _ [] [] rows h⟩
  rw [fetchLoop_ok_none_iff _ _ _ _ [] [] hok]
  simp

/-- Witness for C4: when every query succeeds with a body lacking the `data`
key, every step contributes zero records and the fetch returns `None`. -/
theorem fetch_absent_or_nonempty_witness :
    (∀ d ∈ cityCodes.filter (fun code => code ≠ "SYD"),
      (stepRecords (fun _ => .success Option.none)
        (mkParams (fun _ => "") 0 "SYD")
        (recordsOfBody (fun _ => "")) d).isSome = true) ∧
    ((fetch_flight_data (fun _ => "") (fun _ => "") 0 "SYD"
        (fun _ => .success Option.none)).2 = .ok Option.none ↔
      ∀ d ∈ cityCodes.filter (fun code => code ≠ "SYD"),
        stepRecords (fun _ => .success Option.none)
          (mkParams (fun _ => "") 0 "SYD")
          (recordsOfBody (fun _ => "")) d = some []) :=
  ⟨by decide,
    (fetch_absent_or_nonempty (fun _ => "") (fun _ => "") 0 "SYD"
      (fun _ => .success Option.none) (by decide)).2.1⟩

/-- C8: in every error-free run from a registry origin, the fetcher issues
exactly one query per other registry code — seven in total — each with
`fly_from` the origin, `date_from` tomorrow and `date_to` 180 days from
today (as formatted by the supplied `strftime('%d/%m/%Y')`), currency
`"AUD"`, limit 50, sort `"price"` and `one_for_city = 1`. -/
theorem fetch_issues_one_query_per_destination
    (strftimeDMY fromtsYMD : ℕ → String) (today : ℕ)
    (origin_city_code : String) (resp : SearchParams → UpstreamResponse)
    (horigin : origin_city_code ∈ cityCodes)
    (hok : ∀ d ∈ cityCodes.filter (fun code => code ≠ origin_city_code),
      (stepRecords resp (mkParams strftimeDMY today origin_city_code)
        (recordsOfBody fromtsYMD) d).isSome = true) :
    (fetch_flight_data strftimeDMY fromtsYMD today origin_city_code resp).1 =
      (cityCodes.filter (fun code => code ≠ origin_city_code)).map
        (mkParams strftimeDMY today origin_city_code) ∧
    (fetch_flight_data strftimeDMY fromtsYMD today origin_city_code
        resp).1.map (fun p => p.fly_to) =
      cityCodes.filter (fun code => code ≠ origin_city_code) ∧
    ((fetch_flight_data strftimeDMY fromtsYMD today origin_city_code
        resp).1.map (fun p => p.fly_to)).Nodup ∧
    (∀ c, c ∈ (fetch_flight_data strftimeDMY fromtsYMD today origin_city_code
        resp).1.map (fun p => p.fly_to) ↔
      (c ∈ cityCodes ∧ c ≠ origin_city_code)) ∧
    (fetch_flight_data strftimeDMY fromtsYMD today origin_city_code
        resp).1.length = 7 ∧
    (∀ p ∈ (fetch_flight_data strftimeDMY fromtsYMD today origin_city_code
        resp).1,
      p.fly_from = origin_city_code ∧
      p.date_from = strftimeDMY (today + 1) ∧
      p.date_to = strftimeDMY (today + 180) ∧
      p.curr = "AUD" ∧ p.limit = 50 ∧ p.sort = "price" ∧
      p.one_for_city = 1) := by
  have hqs : (fetch_flight_data strftimeDMY fromtsYMD today origin_city_code
      resp).1 =
      (cityCodes.filter (fun code => code ≠ origin_city_code)).map
        (mkParams strftimeDMY today origin_city_code) := by
    simp only [fetch_flight_data]
    rw [fetchLoop_qs_of_steps _ _ _ _ [] [] hok]
    simp
  have hflymap : ∀ l : List String,
      (l.map (mkParams strftimeDMY today origin_city_code)).map
        (fun p => p.fly_to) = l := by
    intro l
    rw [List.map_map]
    simp [Function.comp_def, mkParams]
  refine ⟨hqs, ?_, ?_, ?_, ?_, ?_⟩
  · rw [hqs, hflymap]
  · rw [hqs, hflymap]
    exact (by decide : cityCodes.Nodup).filter _
  · intro c
    rw [hqs, hflymap, List.mem_filter]
    simp
  · rw [hqs, List.length_map]
    have h8 : origin_city_code = "SYD" ∨ origin_city_code = "MEL" ∨
        origin_city_code = "BNE" ∨ origin_city_code = "PER" ∨
        origin_city_code = "ADL" ∨ origin_city_code = "CBR" ∨
        origin_city_code = "OOL" ∨ origin_city_code = "CNS" := by
      simpa [cityCodes, AUSTRALIAN_CITIES] using horigin
    rcases h8 with rfl | rfl | rfl | rfl | rfl | rfl | rfl | rfl <;> decide
  · intro p hp
    rw [hqs] at hp
    obtain ⟨d, hd, rfl⟩ := List.mem_map.mp hp
    exact ⟨rfl, rfl, rfl, rfl, rfl, rfl, rfl⟩

/-- Witness for C8: a run from `"SYD"` with every query succeeding issues
exactly the seven expected queries. -/
theorem fetch_issues_one_query_per_destination_witness :
    ("SYD" ∈ cityCodes ∧
      ∀ d ∈ cityCodes.filter (fun code => code ≠ "SYD"),
        (stepRecords (fun _ => .success Option.none)
          (mkParams (fun n => toString n) 0 "SYD")
          (recordsOfBody (fun _ => "")) d).isSome = true) ∧
    (fetch_flight_data (fun n => toString n) (fun _ => "") 0 "SYD"
      (fun _ => .success Option.none)).1.length = 7 :=
  ⟨⟨by decide, by decide⟩,
    (fetch_issues_one_query_per_destination (fun n => toString n)
      (fun _ => "") 0 "SYD" (fun _ => .success Option.none)
      (by decide) (by decide)).2.2.2.2.1⟩

/-- C2: for every non-empty table, the aggregation produces exactly one
aggregate per distinct destination present (duplicate-free keys covering
exactly the destinations of the table), with `flightCount` the number of
records for that destination and `averagePrice` the arithmetic mean of their
prices (the group is non-empty, and the mean is the group's price sum
divided by its size). -/
theorem aggregation_per_destination (rows : List FlightRecord)
    (hne : rows ≠ []) :
    ((aggregate rows).map (fun a => a.destination)).Nodup ∧
    (∀ d, (∃ a ∈ aggregate rows, a.destination = d) ↔
      ∃ r ∈ rows, r.destination = d) ∧
    (∀ a ∈ aggregate rows,
      a.flightCount = (groupFor rows a.destination).length ∧
      0 < a.flightCount ∧
      a.averagePrice =
        ((groupFor rows a.destination).map (fun r => r.priceAUD)).sum /
          (a.flightCount : ℚ)) := by
  refine ⟨?_, ?_, ?_⟩
  · rw [aggregate_map_destination]
    exact groupKeys_nodup rows
  · intro d
    rw [← mem_groupKeys]
    constructor
    · rintro ⟨a, ha, rfl⟩
      exact (mem_aggregate rows a ha).1
    · intro hd
      refine ⟨aggFor rows d, ?_, rfl⟩
      unfold aggregate
      exact List.mem_map_of_mem _ hd
  · intro a ha
    obtain ⟨hkey, hform⟩ := mem_aggregate rows a ha
    refine ⟨?_, ?_, ?_⟩
    · rw [hform]
      rfl
    · rw [hform]
      exact groupFor_length_pos rows a.destination hkey
    · conv_lhs => rw [hform]
      rw [hform]
      rfl

/-- Witness for C2 at a concrete two-destination table. -/
theorem aggregation_per_destination_witness :
    (([⟨"Sydney", "SYD", "Melbourne", "MEL", 100, "QF", "2025-01-01"⟩,
       ⟨"Sydney", "SYD", "Brisbane", "BNE", 200, "VA", "2025-01-02"⟩] :
        List FlightRecord) ≠ []) ∧
    (((aggregate [⟨"Sydney", "SYD", "Melbourne", "MEL", 100, "QF",
          "2025-01-01"⟩,
        ⟨"Sydney", "SYD", "Brisbane", "BNE", 200, "VA",
          "2025-01-02"⟩]).map (fun a => a.destination)).Nodup ∧
      (∀ d, (∃ a ∈ aggregate [⟨"Sydney", "SYD", "Melbourne", "MEL", 100,
            "QF", "2025-01-01"⟩,
          ⟨"Sydney", "SYD", "Brisbane", "BNE", 200, "VA", "2025-01-02"⟩],
          a.destination = d) ↔
        ∃ r ∈ ([⟨"Sydney", "SYD", "Melbourne", "MEL", 100, "QF",
            "2025-01-01"⟩,
          ⟨"Sydney", "SYD", "Brisbane", "BNE", 200, "VA", "2025-01-02"⟩] :
            List FlightRecord), r.destination = d) ∧
      (∀ a ∈ aggregate [⟨"Sydney", "SYD", "Melbourne", "MEL", 100, "QF",
            "2025-01-01"⟩,
          ⟨"Sydney", "SYD", "Brisbane", "BNE", 200, "VA", "2025-01-02"⟩],
        a.flightCount = (groupFor [⟨"Sydney", "SYD", "Melbourne", "MEL",
            100, "QF", "2025-01-01"⟩,
          ⟨"Sydney", "SYD", "Brisbane", "BNE", 200, "VA", "2025-01-02"⟩]
            a.destination).length ∧
        0 < a.flightCount ∧
        a.averagePrice =
          ((groupFor [⟨"Sydney", "SYD", "Melbourne", "MEL", 100, "QF",
              "2025-01-01"⟩,
            ⟨"Sydney", "SYD", "Brisbane", "BNE", 200, "VA", "2025-01-02"⟩]
              a.destination).map (fun r => r.priceAUD)).sum /
            (a.flightCount : ℚ))) :=
  ⟨by decide,
    aggregation_per_destination
      [⟨"Sydney", "SYD", "Melbourne", "MEL", 100, "QF", "2025-01-01"⟩,
       ⟨"Sydney", "SYD", "Brisbane", "BNE", 200, "VA", "2025-01-02"⟩]
      (by decide)⟩

/-- C5: for every non-empty table, the price view is non-decreasing in
`averagePrice`, the popularity view is non-increasing in `flightCount`, and
the two views are permutations of each other and of the aggregate set (two
orderings of the same aggregates, not two aggregation passes). -/
theorem views_sorted_same_set (rows : List FlightRecord) (hne : rows ≠ []) :
    (agg_df rows).Pairwise
      (fun a b => a.averagePrice ≤ b.averagePrice) ∧
    (agg_df_sorted_by_count rows).Pairwise
      (fun a b => b.flightCount ≤ a.flightCount) ∧
    (agg_df rows).Perm (agg_df_sorted_by_count rows) ∧
    (agg_df rows).Perm (aggregate rows) := by
  refine ⟨?_, ?_, ?_, ?_⟩
  · have h := @List.sorted_mergeSort DestinationAggregate
      (fun a b => decide (a.averagePrice ≤ b.averagePrice))
      (fun a b c hab hbc => by
        simp only [decide_eq_true_eq] at hab hbc ⊢
        exact le_trans hab hbc)
      (fun a b => by
        simp only [Bool.or_eq_true, decide_eq_true_eq]
        exact le_total _ _)
      (aggregate rows)
    exact h.imp (fun hab => by simpa using hab)
  · have h := @List.sorted_mergeSort DestinationAggregate
      (fun a b => decide (b.flightCount ≤ a.flightCount))
      (fun a b c hab hbc => by
        simp only [decide_eq_true_eq] at hab hbc ⊢
        exact le_trans hbc hab)
      (fun a b => by
        simp only [Bool.or_eq_true, decide_eq_true_eq]
        exact (le_total _ _).symm)
      (agg_df rows)
    exact h.imp (fun hab => by simpa using hab)
  · exact (List.mergeSort_perm (agg_df rows) _).symm
  · exact List.mergeSort_perm (aggregate rows) _

/-- Witness for C5 at a concrete two-destination table. -/
theorem views_sorted_same_set_witness :
    (([⟨"Sydney", "SYD", "Melbourne", "MEL", 100, "QF", "2025-01-01"⟩,
       ⟨"Sydney", "SYD", "Brisbane", "BNE", 200, "VA", "2025-01-02"⟩] :
        List FlightRecord) ≠ []) ∧
    (agg_df [⟨"Sydney", "SYD", "Melbourne", "MEL", 100, "QF",
        "2025-01-01"⟩,
      ⟨"Sydney", "SYD", "Brisbane", "BNE", 200, "VA",
        "2025-01-02"⟩]).Perm
      (agg_df_sorted_by_count [⟨"Sydney", "SYD", "Melbourne", "MEL", 100,
          "QF", "2025-01-01"⟩,
        ⟨"Sydney", "SYD", "Brisbane", "BNE", 200, "VA", "2025-01-02"⟩]) :=
  ⟨by decide,
    (views_sorted_same_set
      [⟨"Sydney", "SYD", "Melbourne", "MEL", 100, "QF", "2025-01-01"⟩,
       ⟨"Sydney", "SYD", "Brisbane", "BNE", 200, "VA", "2025-01-02"⟩]
      (by decide)).2.2.1⟩

/-- C6: for every empty or absent table, `get_ai_insights` returns the fixed
no-data message and makes zero calls to the chat-completion service,
whatever the credential and whatever the service would answer. -/
theorem insights_no_data (openai_key : Option String)
    (chat : String → ChatOutcome) (df : Option (List FlightRecord))
    (h : df = Option.none ∨ df = some ([] : List FlightRecord)) :
    get_ai_insights openai_key chat df =
      ("No data available to generate insights.", 0) := by
  rcases h with rfl | rfl
  · rfl
  · rfl

/-- Witness for C6 at the absent table. -/
theorem insights_no_data_witness :
    ((Option.none : Option (List FlightRecord)) = Option.none ∨
      (Option.none : Option (List FlightRecord)) =
        some ([] : List FlightRecord)) ∧
    get_ai_insights (some "key") (fun _ => .success "analysis")
        (Option.none : Option (List FlightRecord)) =
      ("No data available to generate insights.", 0) :=
  ⟨Or.inl rfl,
    insights_no_data (some "key") (fun _ => .success "analysis")
      Option.none (Or.inl rfl)⟩

/-- C7: for every non-empty table and truthy credential, if the remote
chat-completion call raises, `get_ai_insights` returns normally (no
exception propagates) with a plain-text message embedding the error detail,
after exactly one call to the service (no retry). -/
theorem insights_catch_completion_error (openai_key : Option String)
    (chat : String → ChatOutcome) (rows : List FlightRecord) (e : String)
    (hne : rows ≠ []) (hkey : keyTruthy openai_key = true)
    (hexn : chat (promptOf (to_csv rows)) = .exn e) :
    get_ai_insights openai_key chat (some rows) =
      ("An error occurred while generating AI insights: " ++ e, 1) := by
  simp only [get_ai_insights]
  rw [if_neg (by simp [hne]), if_neg (by simp [hkey])]
  simp only [hexn]

/-- Witness for C7 with a one-row table and a failing completion call. -/
theorem insights_catch_completion_error_witness :
    (([⟨"Sydney", "SYD", "Melbourne", "MEL", 100, "QF", "2025-01-01"⟩] :
        List FlightRecord) ≠ []) ∧
    keyTruthy (some "sk-test") = true ∧
    get_ai_insights (some "sk-test") (fun _ => .exn "rate limit exceeded")
        (some [⟨"Sydney", "SYD", "Melbourne", "MEL", 100, "QF",
          "2025-01-01"⟩]) =
      ("An error occurred while generating AI insights: " ++
        "rate limit exceeded", 1) :=
  ⟨by decide, by decide,
    insights_catch_completion_error (some "sk-test")
      (fun _ => .exn "rate limit exceeded")
      [⟨"Sydney", "SYD", "Melbourne", "MEL", 100, "QF", "2025-01-01"⟩]
      "rate limit exceeded" (by decide) (by decide) rfl⟩

/-- C10: the emptiness check precedes the credential check: for an empty or
absent table with a falsy credential, the returned message is the fixed
no-data message, not the not-configured message (and the two messages
differ). -/
theorem insights_empty_check_first (openai_key : Option String)
    (chat : String → ChatOutcome) (df : Option (List FlightRecord))
    (hdf : df = Option.none ∨ df = some ([] : List FlightRecord))
    (hkey : keyTruthy openai_key = false) :
    (get_ai_insights openai_key chat df).1 =
      "No data available to generate insights." ∧
    (get_ai_insights openai_key chat df).1 ≠
      "OpenAI API key is not set. Cannot generate AI insights." := by
  have h : get_ai_insights openai_key chat df =
      ("No data available to generate insights.", 0) := by
    rcases hdf with rfl | rfl
    · rfl
    · rfl
  rw [h]
  exact ⟨rfl, by decide⟩

/-- Witness for C10: unset credential and empty table. -/
theorem insights_empty_check_first_witness :
    ((some ([] : List FlightRecord) = Option.none ∨
      some ([] : List FlightRecord) = some ([] : List FlightRecord)) ∧
      keyTruthy Option.none = false) ∧
    (get_ai_insights Option.none (fun _ => .success "analysis")
        (some ([] : List FlightRecord))).1 =
      "No data available to generate insights." :=
  ⟨⟨Or.inr rfl, rfl⟩,
    (insights_empty_check_first Option.none (fun _ => .success "analysis")
      (some ([] : List FlightRecord)) (Or.inr rfl) rfl).1⟩

/-- C9: record construction applies the `'N/A'` default only when the
`airlines` key is absent; when the key is present with an empty list, the
unguarded `[0]` index raises an `IndexError`, and a response body containing
such an item makes the whole per-destination record extraction raise. -/
theorem airlines_empty_list_crashes (fromtsYMD : ℕ → String)
    (it : FlightItem) :
    (it.airlines = some [] →
      recordOfItem fromtsYMD it =
        .error "IndexError: list index out of range") ∧
    (it.airlines = Option.none →
      ∃ r, recordOfItem fromtsYMD it = .ok r ∧ r.airline = "N/A") ∧
    (∀ a rest, it.airlines = some (a :: rest) →
      ∃ r, recordOfItem fromtsYMD it = .ok r ∧ r.airline = a) ∧
    (∀ items, it ∈ items → it.airlines = some [] →
      recordsOfBody fromtsYMD (some items) =
        .error "IndexError: list index out of range") := by
  refine ⟨?_, ?_, ?_, ?_⟩
  · intro hair
    unfold recordOfItem
    rw [hair]
  · intro hair
    unfold recordOfItem
    rw [hair]
    exact ⟨_, rfl, rfl⟩
  · intro a rest hair
    unfold recordOfItem
    rw [hair]
    exact ⟨_, rfl, rfl⟩
  · intro items hit hair
    have hemp : items.isEmpty = false := by
      cases items
      · cases hit
      · rfl
    simp only [recordsOfBody, hemp, if_neg Bool.false_ne_true]
    exact mapExcept_records_error fromtsYMD items ⟨it, hit, hair⟩

/-- Witness for C9: a concrete item with a present-but-empty airlines list
crashes record construction, while an absent key yields the default. -/
theorem airlines_empty_list_crashes_witness :
    ((⟨"Sydney", "SYD", "Melbourne", "MEL", 100, some [], 0⟩ :
        FlightItem).airlines = some [] ∧
      recordOfItem (fun _ => "") ⟨"Sydney", "SYD", "Melbourne", "MEL", 100,
        some [], 0⟩ = .error "IndexError: list index out of range") ∧
    ((⟨"Sydney", "SYD", "Melbourne", "MEL", 100, Option.none, 0⟩ :
        FlightItem).airlines = Option.none ∧
      ∃ r, recordOfItem (fun _ => "") ⟨"Sydney", "SYD", "Melbourne", "MEL",
        100, Option.none, 0⟩ = .ok r ∧ r.airline = "N/A") :=
  ⟨⟨rfl, (airlines_empty_list_crashes (fun _ => "")
      ⟨"Sydney", "SYD", "Melbourne", "MEL", 100, some [], 0⟩).1 rfl⟩,
    ⟨rfl, (airlines_empty_list_crashes (fun _ => "")
      ⟨"Sydney", "SYD", "Melbourne", "MEL", 100, Option.none, 0⟩).2.1 rfl⟩⟩

end OzCompass
